import Mathlib

/-!
Verification of the coordinate-reconciliation utility
(`validate_coords.py` and `apply_verified_coords.py`).

The development shallowly embeds the two scripts:

* the surgical text substitution (`apply_fix` in both scripts, a
  `re.sub(..., count=1)` over the host document),
* the numeric rendering used by the substitution (Python `str()` on the
  old float values and the `f"{x:.4f}"` formatting of the new values),
* the haversine distance (`haversine_km`),
* the Nominatim adapter (`nominatim_lookup`) and the batch driver
  (`main` of `validate_coords.py`), and
* the static data tables (`PATCHES`, `POLYGON_TOWNS`, `SKIP_NAMES`).

Documents are lists of characters; machine floats are modelled by the
rational numbers they denote (every coordinate handled by the repository
is an exact decimal with at most four fractional digits, for which the
Python float-to-string conversions are reproduced exactly).
-/

namespace GillyGeo

/-! ## Python `\s` and literal matching primitives -/

/-- The characters matched by Python's regex class `\s` on `str`
patterns: the six ASCII whitespace characters together with the Unicode
whitespace code points recognised by `str.isspace`. -/
def pyIsSpace (c : Char) : Bool :=
  let n := c.toNat
  n = 0x20 || n = 0x9 || n = 0xa || n = 0xd || n = 0xb || n = 0xc ||
  (0x1c <= n && n <= 0x1f) || n = 0x85 || n = 0xa0 || n = 0x1680 ||
  (0x2000 <= n && n <= 0x200a) || n = 0x2028 || n = 0x2029 || n = 0x202f ||
  n = 0x205f || n = 0x3000

/-- Consume the literal `lit` from the front of `s`; `none` when `s`
does not start with `lit`.  This is how every `re.escape`d fragment of
the pattern matches. -/
def eatLit : List Char → List Char → Option (List Char)
  | [], s => some s
  | _ :: _, [] => none
  | c :: cs, d :: ds => if c = d then eatLit cs ds else none

/-- The fixed name tag of the record pattern: `name:"<name>",`. -/
def nameTag (name : List Char) : List Char :=
  "name:\"".toList ++ name ++ "\",".toList

/-- Match the regex
`(name:"<name>",\s*lat:)<old1>(,\s*lng:)<old2>`
at the head of `s`.  Both `\s*` runs are deterministic: they are
followed by the non-whitespace letter `l`, so the greedy run consumes
exactly the maximal whitespace block.  On success the two captured
whitespace runs and the remainder of the document are returned. -/
def matchAt (name o1 o2 s : List Char) : Option (List Char × List Char × List Char) :=
  (eatLit (nameTag name) s).bind fun s1 =>
    (eatLit "lat:".toList (s1.dropWhile pyIsSpace)).bind fun s2 =>
      (eatLit o1 s2).bind fun s3 =>
        (eatLit [','] s3).bind fun s4 =>
          (eatLit "lng:".toList (s4.dropWhile pyIsSpace)).bind fun s5 =>
            (eatLit o2 s5).map fun rest =>
              (s1.takeWhile pyIsSpace, s4.takeWhile pyIsSpace, rest)

/-- The shape of a record span: the name tag, a whitespace run, the
latitude field, a comma, a whitespace run, the longitude field.  A
matched span is `recordText name w1 w2 o1 o2`; the text produced for it
by the replacement lambda
`m.group(1) + f"{new_lat:.4f}" + m.group(2) + f"{new_lng:.4f}"`
is `recordText name w1 w2 n1 n2`: the two captured groups are emitted
verbatim around the two freshly formatted numbers. -/
def recordText (name w1 w2 latS lngS : List Char) : List Char :=
  nameTag name ++ w1 ++ "lat:".toList ++ latS ++ [','] ++ w2 ++ "lng:".toList ++ lngS

/-- `pattern.sub(repl, content, count=1)`: scan left to right, replace
the leftmost match only, copy everything else verbatim. -/
def subFirst (name o1 o2 n1 n2 : List Char) : List Char → List Char
  | [] => []
  | c :: t =>
    match matchAt name o1 o2 (c :: t) with
    | some (w1, w2, rest) => recordText name w1 w2 n1 n2 ++ rest
    | none => c :: subFirst name o1 o2 n1 n2 t

/-- Whether the pattern matches anywhere in the document. -/
def hasMatch (name o1 o2 : List Char) : List Char → Bool
  | [] => false
  | c :: t => (matchAt name o1 o2 (c :: t)).isSome || hasMatch name o1 o2 t

/-! ## Python float-to-string conversions

All coordinates handled by the repository (the `PATCHES` table, the
values parsed back out of `index.html`, and Nominatim responses) are
exact decimals with at most four fractional digits.  For a float whose
shortest round-trip representation has at most four fractional digits,
Python's `str` prints exactly that shortest decimal (at least one
fractional digit), and `f"{x:.4f}"` prints it padded to exactly four
fractional digits.  We model such floats by the rational value they
denote. -/

/-- The coordinate scaled to integral ten-thousandths. -/
def scaled4 (q : ℚ) : ℤ := ⌊q * 10000⌋

/-- Decimal digits of `n`, zero-padded on the left to four digits. -/
def pad4 (n : ℕ) : List Char :=
  let s := (Nat.repr n).toList
  List.replicate (4 - s.length) '0' ++ s

/-- `f"{x:.4f}"`: sign, integer part, dot, exactly four fractional
digits. -/
def fmt4 (q : ℚ) : List Char :=
  let t := scaled4 q
  let n := t.natAbs
  (if t < 0 then ['-'] else []) ++ (Nat.repr (n / 10000)).toList ++ ['.'] ++ pad4 (n % 10000)

/-- Fractional digits as printed by `str`: trailing zeros stripped, but
never empty (`str(9.0) = "9.0"`). -/
def fracDigits (n : ℕ) : List Char :=
  let s := (pad4 n).reverse.dropWhile (fun c => c = '0') |>.reverse
  if s.isEmpty then ['0'] else s

/-- Python `str` on a float with at most four fractional decimal
digits: the shortest decimal form. -/
def pyStr (q : ℚ) : List Char :=
  let t := scaled4 q
  let n := t.natAbs
  (if t < 0 then ['-'] else []) ++ (Nat.repr (n / 10000)).toList ++ ['.'] ++ fracDigits (n % 10000)

/-! ## The two patch appliers -/

/-- `apply_fix` of `apply_verified_coords.py`: substitute the leftmost
occurrence of the pattern (old values stringified by `str`, new values
formatted to four decimals) and report whether the document changed
(`new_content != content`). -/
def apply_fix (content name : List Char) (old_lat old_lng new_lat new_lng : ℚ) :
    List Char × Bool :=
  let newContent :=
    subFirst name (pyStr old_lat) (pyStr old_lng) (fmt4 new_lat) (fmt4 new_lng) content
  (newContent, decide (newContent ≠ content))

/-- `old_snippet in content`: literal substring occurrence. -/
def containsLit (lit : List Char) : List Char → Bool
  | [] => lit.isEmpty
  | c :: t => (eatLit lit (c :: t)).isSome || containsLit lit t

/-- `content.replace(old, new, 1)`: replace the leftmost literal
occurrence only. -/
def replaceOnce (lit repl : List Char) : List Char → List Char
  | [] => []
  | c :: t =>
    match eatLit lit (c :: t) with
    | some rest => repl ++ rest
    | none => c :: replaceOnce lit repl t

/-- The single-space snippet `name:"<name>", lat:<latS>, lng:<lngS>`
built by `apply_fix` of `validate_coords.py`. -/
def snippet (name latS lngS : List Char) : List Char :=
  "name:\"".toList ++ name ++ "\", lat:".toList ++ latS ++ ", lng:".toList ++ lngS

/-- `apply_fix` of `validate_coords.py`.  It first tries the exact
single-space snippet with `str.replace(..., 1)`; if the snippet is not
present it falls back to the same regex substitution as the sibling
script.  The file is rewritten only when the text changed; the result
is the host file's content after the call, paired with the returned
`changed` flag.  (The `re.sub(r"\s+", "", old_snippet)` reassignment in
the source is dead: the regex branch never reads `old_snippet`.) -/
def apply_fix_validate (content name : List Char) (old_lat old_lng new_lat new_lng : ℚ) :
    List Char × Bool :=
  let oldSnip := snippet name (pyStr old_lat) (pyStr old_lng)
  let newSnip := snippet name (fmt4 new_lat) (fmt4 new_lng)
  let newContent :=
    if containsLit oldSnip content then replaceOnce oldSnip newSnip content
    else subFirst name (pyStr old_lat) (pyStr old_lng) (fmt4 new_lat) (fmt4 new_lng) content
  if newContent = content then (content, false) else (newContent, true)



/-! ## Static data tables -/

/-- The `PATCHES` table of `apply_verified_coords.py`:
`(name, old_lat, old_lng, new_lat, new_lng)` rows, corrections below
3 km.  The trailing `Dimona` row duplicates an earlier one, exactly as
in the source. -/
def PATCHES : List (String × ℚ × ℚ × ℚ × ℚ) := [
  ("I\x27billin", 32.8056, 35.1658, 32.8209, 35.1913),
  ("Turan", 32.7956, 35.3506, 32.7773, 35.3725),
  ("Nahef", 32.9417, 35.2889, 32.9346, 35.3176),
  ("Pardesiya", 32.2958, 34.8867, 32.3070, 34.9098),
  ("Revivim", 31.0211, 34.7158, 31.0432, 34.7207),
  ("Sha\x27ar HaGolan", 32.7056, 35.6158, 32.6858, 35.6043),
  ("Majd al-Krum", 32.9167, 35.2333, 32.9226, 35.2580),
  ("Qiryat Tiv\x27on", 32.7217, 35.1267, 32.7332, 35.1453),
  ("Harish", 32.4553, 35.0298, 32.4596, 35.0511),
  ("Yesud HaMa\x27ala", 33.0697, 35.5869, 33.0574, 35.6030),
  ("Mi\x27ilya", 33.0122, 35.2494, 33.0281, 35.2583),
  ("Omer", 31.2581, 34.8363, 31.2678, 34.8513),
  ("Pardes Hanna", 32.4721, 34.9718, 32.4809, 34.9877),
  ("Kafr Qara", 32.5136, 35.0608, 32.5047, 35.0456),
  ("Yafi\x27a", 32.6717, 35.2808, 32.6866, 35.2772),
  ("Arad", 31.2589, 35.2128, 31.2600, 35.1951),
  ("Meona", 33.0021, 35.2620, 33.0167, 35.2597),
  ("Jerusalem", 31.7683, 35.2137, 31.7788, 35.2258),
  ("Deir Hanna", 32.8767, 35.3656, 32.8625, 35.3667),
  ("Mazkeret Batya", 31.8536, 34.8465, 31.8422, 34.8560),
  ("Yokneam", 32.6603, 35.1019, 32.6481, 35.0944),
  ("Mevaseret Zion", 31.8017, 35.1414, 31.8040, 35.1570),
  ("Beitar Illit", 31.6997, 35.1145, 31.6981, 35.0988),
  ("Eilon", 33.0753, 35.2208, 33.0633, 35.2197),
  ("Abu Snan", 32.9556, 35.1592, 32.9586, 35.1717),
  ("Degania Alef", 32.7024, 35.5644, 32.7085, 35.5749),
  ("Herzliya", 32.1663, 34.8433, 32.1677, 34.8308),
  ("Kfar Saba", 32.1742, 34.9077, 32.1802, 34.9181),
  ("Daliyat al-Karmel", 32.6935, 35.0607, 32.6922, 35.0483),
  ("Hod HaSharon", 32.1538, 34.8966, 32.1499, 34.8851),
  ("Ma\x27alot-Tarshiha", 33.0146, 35.2726, 33.0145, 35.2848),
  ("Kiryat Ata", 32.8134, 35.1094, 32.8042, 35.1041),
  ("Kfar Kama", 32.7253, 35.4506, 32.7211, 35.4408),
  ("Kiryat Bialik", 32.8286, 35.0845, 32.8367, 35.0893),
  ("Ein Gedi", 31.4608, 35.3887, 31.4524, 35.3848),
  ("Even Yehuda", 32.2637, 34.8884, 32.2725, 34.8868),
  ("Or Yehuda", 32.0334, 34.8558, 32.0270, 34.8630),
  ("Peki\x27in", 32.9758, 35.3236, 32.9772, 35.3340),
  ("Kfar Tavor", 32.6872, 35.4308, 32.6878, 35.4204),
  ("Jaljulia", 32.1572, 34.9622, 32.1523, 34.9537),
  ("Metula", 33.2777, 35.5700, 33.2692, 35.5723),
  ("Kfar Manda", 32.8197, 35.2619, 32.8114, 35.2598),
  ("Iksal", 32.6897, 35.3264, 32.6816, 35.3240),
  ("Rishon LeZion", 31.9642, 34.8007, 31.9636, 34.8101),
  ("Savyon", 32.0408, 34.8778, 32.0485, 34.8792),
  ("Nof HaGalil", 32.7086, 35.3236, 32.7023, 35.3183),
  ("Bat Yam", 32.0231, 34.7503, 32.0155, 34.7505),
  ("Migdal", 32.8361, 35.5078, 32.8387, 35.4994),
  ("Nazareth", 32.6996, 35.3035, 32.7046, 35.2972),
  ("Ashdod", 31.8014, 34.6436, 31.7957, 34.6489),
  ("Akko", 32.9267, 35.0840, 32.9282, 35.0756),
  ("Tel Mond", 32.2604, 34.9213, 32.2536, 34.9185),
  ("Binyamina", 32.5238, 34.9509, 32.5203, 34.9436),
  ("Katzrin", 32.9933, 35.6958, 32.9920, 35.6877),
  ("Yeroham", 30.9868, 34.9323, 30.9888, 34.9251),
  ("Lod", 31.9516, 34.8954, 31.9489, 34.8885),
  ("Kiryat Ekron", 31.8671, 34.8219, 31.8608, 34.8233),
  ("Birya", 32.9833, 35.4972, 32.9776, 35.5006),
  ("Reina", 32.7281, 35.3178, 32.7236, 35.3125),
  ("Beer Sheva", 31.2518, 34.7913, 31.2457, 34.7925),
  ("Ramat HaSharon", 32.1449, 34.8396, 32.1397, 34.8359),
  ("Ganei Tikva", 32.0628, 34.8827, 32.0604, 34.8761),
  ("Yehud", 32.0282, 34.8869, 32.0332, 34.8908),
  ("Kiryat Gat", 31.6073, 34.7647, 31.6094, 34.7712),
  ("Ofakim", 31.3179, 34.6228, 31.3126, 34.6209),
  ("Sde Boker", 30.8728, 34.7862, 30.8737, 34.7926),
  ("Fureidis", 32.6035, 34.9574, 32.5988, 34.9542),
  ("Safed", 32.9646, 35.4961, 32.9646, 35.5025),
  ("Isfiya", 32.7147, 35.0608, 32.7152, 35.0671),
  ("Daburiyya", 32.6878, 35.3697, 32.6928, 35.3716),
  ("Holon", 32.0158, 34.7799, 32.0160, 34.7860),
  ("Nazareth Illit", 32.7056, 35.3230, 32.7023, 35.3183),
  ("Karmiel", 32.9181, 35.2933, 32.9159, 35.2934),
  ("Tiberias", 32.7922, 35.5312, 32.7939, 35.5329),
  ("Majdal Shams", 33.2681, 35.7717, 33.2684, 35.7694),
  ("Kiryat Motzkin", 32.8372, 35.0808, 32.8391, 35.0804),
  ("Eilat", 29.5581, 34.9482, 29.5569, 34.9498),
  ("Givatayim", 32.0714, 34.8105, 32.0730, 34.8113),
  ("Kafr Qasim", 32.1138, 34.9743, 32.1152, 34.9753),
  ("Kafr Kanna", 32.7472, 35.3386, 32.7460, 35.3398),
  ("Mitzpe Ramon", 30.6104, 34.8014, 30.6120, 34.8012),
  ("Petah Tikva", 32.0878, 34.8878, 32.0878, 34.8860),
  ("Nahariya", 33.0078, 35.0942, 33.0063, 35.0946),
  ("Baqa al-Gharbiyye", 32.4185, 35.0437, 32.4197, 35.0428),
  ("Beit She\x27an", 32.4972, 35.4988, 32.4968, 35.4973),
  ("Maghar", 32.8858, 35.4047, 32.8858, 35.4062),
  ("Tamra", 32.8537, 35.1993, 32.8535, 35.1979),
  ("Kiryat Malachi", 31.7321, 34.7448, 31.7312, 34.7448),
  ("Nes Ziona", 31.9302, 34.7998, 31.9296, 34.7991),
  ("Ramat Gan", 32.0682, 34.8239, 32.0687, 34.8247),
  ("Umm al-Fahm", 32.5166, 35.1525, 32.5158, 35.1525),
  ("Rahat", 31.3929, 34.7540, 31.3934, 34.7547),
  ("Qalansawe", 32.2846, 34.9807, 32.2849, 34.9802),
  ("Netivot", 31.4218, 34.5883, 31.4214, 34.5884),
  ("Ein Bokek", 31.1975, 35.3600, 31.2014, 35.3639),
  ("Arrabe", 32.8533, 35.3344, 32.8486, 35.3358),
  ("Bnei Brak", 32.0828, 34.8338, 32.0874, 34.8324),
  ("Gedera", 31.8123, 34.7750, 31.8118, 34.7804),
  ("Lehavim", 31.3738, 34.8170, 31.3703, 34.8137),
  ("Rame", 32.9375, 35.3728, 32.9380, 35.3676),
  ("Kfar Shmaryahu", 32.1817, 34.8169, 32.1854, 34.8198),
  ("Hazor HaGlilit", 32.9778, 35.5483, 32.9792, 35.5433),
  ("Dimona", 31.0689, 35.0317, 31.0687, 35.0366),
  ("Nesher", 32.7729, 35.0420, 32.7709, 35.0381),
  ("Rosh Pinna", 32.9694, 35.5481, 32.9682, 35.5438),
  ("Afula", 32.6076, 35.2897, 32.6091, 35.2857),
  ("Hura", 31.3004, 34.9357, 31.2972, 34.9379),
  ("Kafr Yasif", 32.9497, 35.1665, 32.9533, 35.1657),
  ("Kiryat Ono", 32.0614, 34.8561, 32.0592, 34.8594),
  ("Kfar Yona", 32.3156, 34.9361, 32.3145, 34.9321),
  ("Shoham", 31.9983, 34.9433, 32.0005, 34.9465),
  ("Shlomi", 33.0781, 35.1519, 33.0761, 35.1486),
  ("Yavne", 31.8776, 34.7422, 31.8769, 34.7383),
  ("Rosh HaAyin", 32.0956, 34.9573, 32.0953, 34.9533),
  ("Atlit", 32.6957, 34.9422, 32.6928, 34.9402),
  ("Migdal HaEmek", 32.6747, 35.2381, 32.6766, 35.2413),
  ("Abu Ghosh", 31.8049, 35.1054, 31.8064, 35.1089),
  ("Ra\x27anana", 32.1845, 34.8711, 32.1860, 34.8678),
  ("Giv\x27at Shmuel", 32.0742, 34.8494, 32.0764, 34.8520),
  ("Latrun", 31.8374, 34.9847, 31.8361, 34.9878),
  ("Tirat Carmel", 32.7587, 34.9703, 32.7614, 34.9716),
  ("Elad", 32.0506, 34.9489, 32.0501, 34.9522),
  ("Sakhnin", 32.8665, 35.3018, 32.8638, 35.3023),
  ("Or Akiva", 32.5074, 34.9221, 32.5090, 34.9196),
  ("Rehovot", 31.8928, 34.8113, 31.8953, 34.8106),
  ("Gan Yavne", 31.7887, 34.7074, 31.7871, 34.7097),
  ("Jisr az-Zarqa", 32.5397, 34.9147, 32.5376, 34.9132),
  ("Tira", 32.2306, 34.9503, 32.2330, 34.9504),
  ("Zichron Ya\x27akov", 32.5703, 34.9556, 32.5712, 34.9530),
  ("Dimona", 31.0689, 35.0317, 31.0687, 35.0366)]

/-- `POLYGON_TOWNS` of `validate_coords.py`: towns with polygon
mapping, excluded from validation. -/
def POLYGON_TOWNS : List String := [
  "Afula",
  "Akko",
  "Arad",
  "Arrabe",
  "Ashdod",
  "Ashkelon",
  "Baqa al-Gharbiyye",
  "Bat Yam",
  "Beer Sheva",
  "Beit She\x27an",
  "Beit Shemesh",
  "Binyamina",
  "Bnei Brak",
  "Daliyat al-Karmel",
  "Dimona",
  "Eilat",
  "Even Yehuda",
  "Gan Yavne",
  "Ganei Tikva",
  "Gedera",
  "Giv\x27at Shmuel",
  "Givatayim",
  "Hadera",
  "Haifa",
  "Herzliya",
  "Hod HaSharon",
  "Holon",
  "Isfiya",
  "Jisr az-Zarqa",
  "Kafr Qasim",
  "Kafr Qara",
  "Kafr Yasif",
  "Karmiel",
  "Katzrin",
  "Kfar Saba",
  "Kiryat Ata",
  "Kiryat Bialik",
  "Kiryat Motzkin",
  "Kiryat Ono",
  "Kiryat Shmona",
  "Kiryat Yam",
  "Lod",
  "Ma\x27ale Adumim",
  "Ma\x27alot-Tarshiha",
  "Majd al-Krum",
  "Mevaseret Zion",
  "Metula",
  "Migdal HaEmek",
  "Mitzpe Ramon",
  "Modi\x27in",
  "Nazareth",
  "Nes Ziona",
  "Nesher",
  "Netanya",
  "Netivot",
  "Nof HaGalil",
  "Nazareth Illit",
  "Ofakim",
  "Omer",
  "Or Akiva",
  "Or Yehuda",
  "Pardes Hanna",
  "Petah Tikva",
  "Qalansawe",
  "Qiryat Tiv\x27on",
  "Ra\x27anana",
  "Rahat",
  "Ramat Gan",
  "Ramat HaSharon",
  "Ramla",
  "Rehovot",
  "Rishon LeZion",
  "Rosh HaAyin",
  "Safed",
  "Sakhnin",
  "Sderot",
  "Shfar\x27am",
  "Shoham",
  "Tamra",
  "Tel Aviv",
  "Tel Mond",
  "Tiberias",
  "Tira",
  "Tirat Carmel",
  "Umm al-Fahm",
  "Yavne",
  "Yavne\x27el",
  "Yehud",
  "Yeroham",
  "Yoqne\x27am Illit",
  "Zichron Ya\x27akov",
  "Daburiyya",
  "Elad",
  "Hazor HaGlilit",
  "Kafr Kanna",
  "Kfar Kama",
  "Kfar Manda",
  "Kfar Shmaryahu",
  "Kfar Tavor",
  "Kfar Yona",
  "Kiryat Ekron",
  "Majdal Shams",
  "Migdal",
  "Peki\x27in",
  "Rame",
  "Reina",
  "Savyon",
  "Shlomi",
  "Yesud HaMa\x27ala"]
/-- `SKIP_NAMES` of `validate_coords.py`: interchanges and junctions
with no OSM city record, excluded from validation. -/
def SKIP_NAMES : List String := [
  "Gesher HaYarkon Interchange",
  "Sha\x27ar HaGai Interchange",
  "Qasem Interchange",
  "Golani Interchange",
  "Yokneam Interchange",
  "Glilot Interchange",
  "Hemed Interchange",
  "Eyal Interchange",
  "Plugot Interchange",
  "Zohar Interchange",
  "Lehavim Interchange",
  "Afula Interchange",
  "Haifa North Interchange",
  "Gan Shmuel Interchange",
  "Caesarea Interchange",
  "Megiddo Interchange",
  "Geha Interchange",
  "Latrun Interchange",
  "Beer Sheva North Interchange",
  "Kfar Netter Interchange",
  "Mahanayim Interchange",
  "Ben Gurion Interchange",
  "Bilu Interchange",
  "HaSharon Interchange",
  "Ein Tut Interchange",
  "Morasha Interchange",
  "Ramat Yishay Interchange",
  "Nahshonim Interchange",
  "Tzomet HaGader Interchange"]

/-- `THRESHOLD_KM` of `validate_coords.py`. -/
noncomputable def THRESHOLD_KM : ℝ := 3.0

/-! ## Haversine distance -/

/-- `math.radians`: degrees to radians. -/
noncomputable def radians (x : ℝ) : ℝ := x * Real.pi / 180

/-- The intermediate `a` computed by `haversine_km`. -/
noncomputable def haversine_a (lat1 lng1 lat2 lng2 : ℝ) : ℝ :=
  Real.sin (radians (lat2 - lat1) / 2) ^ 2 +
    Real.cos (radians lat1) * Real.cos (radians lat2) *
      Real.sin (radians (lng2 - lng1) / 2) ^ 2

/-- `haversine_km` of `validate_coords.py`: `R * 2 * asin(sqrt(a))`
with `R = 6371`. -/
noncomputable def haversine_km (lat1 lng1 lat2 lng2 : ℝ) : ℝ :=
  6371 * 2 * Real.arcsin (Real.sqrt (haversine_a lat1 lng1 lat2 lng2))

/-- The reference haversine formula exactly as displayed in the
specification:  `a = sin²(Δlat/2) + cos(lat1)·cos(lat2)·sin²(Δlng/2)`,
`d = 2R·asin(√a)`, `R = 6371`, all angles converted to radians before
use. -/
noncomputable def haversineSpec_km (lat1 lng1 lat2 lng2 : ℝ) : ℝ :=
  2 * 6371 * Real.arcsin (Real.sqrt
    (Real.sin ((radians lat2 - radians lat1) / 2) ^ 2 +
      Real.cos (radians lat1) * Real.cos (radians lat2) *
        Real.sin ((radians lng2 - radians lng1) / 2) ^ 2))

/-! ## Locator and batch driver -/

/-- One candidate of the parsed Nominatim JSON response:
`lat`, `lon` (parsed as floats) and `display_name`. -/
structure Candidate where
  lat : ℚ
  lon : ℚ
  display_name : String

/-- Outcome of `nominatim_lookup`: either the coordinate triple of the
first candidate, or a tagged failure (`(None, None, reason)` in the
source). -/
inductive LookupResult where
  | success (lat lng : ℚ) (label : String)
  | failure (reason : String)

/-- `nominatim_lookup` of `validate_coords.py`, abstracted over the
network: the argument is the outcome of the guarded request block —
either the parsed candidate list, or the exception message `e`.  An
exception yields `(None, None, f"ERROR: {e}")`; an empty result list
falls through to `(None, None, "No result")`; otherwise the first
candidate is returned. -/
def nominatim_lookup (resp : Except String (List Candidate)) : LookupResult :=
  match resp with
  | .error e => .failure ("ERROR: " ++ e)
  | .ok [] => .failure "No result"
  | .ok (c :: _) => .success c.lat c.lon c.display_name

/-- Status tag of a per-record report line printed by `main`. -/
inductive Status where
  | ok
  | patched
  | patchFailed
  | check
  | lookupFailed
deriving DecidableEq

/-- One per-record report line: the record's name and its status tag. -/
structure ReportLine where
  name : String
  status : Status
deriving DecidableEq

/-- State threaded through the `main` loop of `validate_coords.py`:
the names passed to `nominatim_lookup` so far, the per-record report
lines printed so far, and the current content of the host document
(rewritten in place in apply mode). -/
structure BatchState where
  lookups : List String
  lines : List ReportLine
  content : List Char

/-- The classifier branch `dist <= THRESHOLD_KM` of `main`. -/
noncomputable def distOk (d : ℝ) : Bool :=
  @decide (d ≤ THRESHOLD_KM) (Classical.propDecidable _)

/-- One iteration of the `main` loop on a non-excluded record
`(name, stored_lat, stored_lng)`: look the name up; on failure print a
`LOOKUP FAILED` line and continue; otherwise classify the haversine
distance, printing `OK` within threshold, and beyond it either patch
the host document (apply mode; `PATCHED`/`PATCH FAILED` as the patch
reports change) or print a `*** CHECK ***` line. -/
noncomputable def processTown (applyMode : Bool)
    (oracle : String → Except String (List Candidate))
    (acc : BatchState) (t : String × ℚ × ℚ) : BatchState :=
  match nominatim_lookup (oracle t.1) with
  | .failure _ =>
    { acc with lookups := acc.lookups ++ [t.1],
               lines := acc.lines ++ [⟨t.1, .lookupFailed⟩] }
  | .success osmLat osmLng _ =>
    let dist := haversine_km (t.2.1 : ℝ) (t.2.2 : ℝ) (osmLat : ℝ) (osmLng : ℝ)
    if distOk dist then
      { acc with lookups := acc.lookups ++ [t.1],
                 lines := acc.lines ++ [⟨t.1, .ok⟩] }
    else if applyMode then
      let r := apply_fix_validate acc.content t.1.toList t.2.1 t.2.2 osmLat osmLng
      { lookups := acc.lookups ++ [t.1],
        lines := acc.lines ++ [⟨t.1, if r.2 then .patched else .patchFailed⟩],
        content := r.1 }
    else
      { acc with lookups := acc.lookups ++ [t.1],
                 lines := acc.lines ++ [⟨t.1, .check⟩] }

/-- `main` of `validate_coords.py`, abstracted over the network oracle:
filter the parsed records through the two exclusion sets, then run the
per-record loop over the survivors. -/
noncomputable def mainValidate (applyMode : Bool)
    (oracle : String → Except String (List Candidate))
    (content : List Char) (towns : List (String × ℚ × ℚ)) : BatchState :=
  let nonPolygon := towns.filter fun t =>
    !POLYGON_TOWNS.contains t.1 && !SKIP_NAMES.contains t.1
  nonPolygon.foldl (processTown applyMode oracle) ⟨[], [], content⟩

/-! ## Lemmas about the substitution -/

lemma eatLit_append (l r : List Char) : eatLit l (l ++ r) = some r := by
  induction l with
  | nil => rfl
  | cons c cs ih => simpa [eatLit] using ih

lemma takeWhile_ws_append {w r : List Char} (hw : ∀ c ∈ w, pyIsSpace c = true)
    (hr : r.takeWhile pyIsSpace = []) :
    (w ++ r).takeWhile pyIsSpace = w ∧ (w ++ r).dropWhile pyIsSpace = r := by
  induction w with
  | nil =>
    refine ⟨by simpa using hr, ?_⟩
    cases r with
    | nil => rfl
    | cons a t =>
      by_cases ha : pyIsSpace a = true
      · simp [List.takeWhile_cons, ha] at hr
      · simp [List.dropWhile_cons, ha]
  | cons c cs ih =>
    have hc : pyIsSpace c = true := hw c (by simp)
    have ih2 := ih (fun d hd => hw d (by simp [hd]))
    simp [List.takeWhile_cons, List.dropWhile_cons, hc, ih2.1, ih2.2]

lemma matchAt_nil (name o1 o2 : List Char) : matchAt name o1 o2 [] = none := rfl

lemma matchAt_recordText {name o1 o2 w1 w2 : List Char}
    (hw1 : ∀ c ∈ w1, pyIsSpace c = true) (hw2 : ∀ c ∈ w2, pyIsSpace c = true)
    (S : List Char) :
    matchAt name o1 o2 (recordText name w1 w2 o1 o2 ++ S) = some (w1, w2, S) := by
  have e : recordText name w1 w2 o1 o2 ++ S
      = nameTag name ++ (w1 ++ ("lat:".toList ++ (o1 ++ ([','] ++ (w2 ++ ("lng:".toList ++ (o2 ++ S))))))) := by
    simp only [recordText, List.append_assoc]
  have hlat : ∀ X : List Char, ("lat:".toList ++ X).takeWhile pyIsSpace = [] :=
    fun X => rfl
  have hlng : ∀ X : List Char, ("lng:".toList ++ X).takeWhile pyIsSpace = [] :=
    fun X => rfl
  obtain ⟨ht1, hd1⟩ := @takeWhile_ws_append w1
    ("lat:".toList ++ (o1 ++ ([','] ++ (w2 ++ ("lng:".toList ++ (o2 ++ S)))))) hw1 (hlat _)
  obtain ⟨ht2, hd2⟩ := @takeWhile_ws_append w2 ("lng:".toList ++ (o2 ++ S)) hw2 (hlng _)
  rw [e]
  simp only [matchAt, eatLit_append, Option.some_bind, hd1, ht1, hd2, ht2, Option.map_some]
  exact rfl

lemma subFirst_matched {name o1 o2 n1 n2 s w1 w2 rest : List Char}
    (h : matchAt name o1 o2 s = some (w1, w2, rest)) :
    subFirst name o1 o2 n1 n2 s = recordText name w1 w2 n1 n2 ++ rest := by
  cases s with
  | nil => rw [matchAt_nil] at h; cases h
  | cons c t => simp only [subFirst, h]

lemma subFirst_prepend {name o1 o2 n1 n2 : List Char} (P s : List Char)
    (hP : ∀ i, i < P.length → matchAt name o1 o2 ((P ++ s).drop i) = none) :
    subFirst name o1 o2 n1 n2 (P ++ s) = P ++ subFirst name o1 o2 n1 n2 s := by
  induction P with
  | nil => simp
  | cons c P ih =>
    have h0 : matchAt name o1 o2 (c :: (P ++ s)) = none := by
      simpa using hP 0 (by simp)
    have hrest : ∀ i, i < P.length → matchAt name o1 o2 ((P ++ s).drop i) = none := by
      intro i hi
      simpa [List.drop_succ_cons] using hP (i + 1) (by simpa using Nat.succ_lt_succ hi)
    simp only [List.cons_append, subFirst, List.append_eq, h0, ih hrest]

lemma subFirst_of_no_match {name o1 o2 n1 n2 : List Char} :
    ∀ s, hasMatch name o1 o2 s = false → subFirst name o1 o2 n1 n2 s = s
  | [], _ => rfl
  | c :: t, h => by
    have h0 : ((matchAt name o1 o2 (c :: t)).isSome || hasMatch name o1 o2 t) = false := h
    have h1 : matchAt name o1 o2 (c :: t) = none :=
      Option.not_isSome_iff_eq_none.mp (by simp [(Bool.or_eq_false_iff.mp h0).1])
    have h2 : hasMatch name o1 o2 t = false := (Bool.or_eq_false_iff.mp h0).2
    simp only [subFirst, h1, subFirst_of_no_match t h2]


/-! ## Evaluating the float renderings at concrete values -/

lemma scaled4_eq (q : ℚ) (t : ℤ) (h1 : (t : ℚ) ≤ q * 10000) (h2 : q * 10000 < t + 1) :
    scaled4 q = t := by
  unfold scaled4
  exact Int.floor_eq_iff.mpr ⟨h1, by exact_mod_cast h2⟩

lemma pyStr_1_5 : pyStr 1.5 = "1.5".toList := by
  have h : scaled4 (1.5 : ℚ) = 15000 := scaled4_eq _ _ (by norm_num) (by norm_num)
  simp only [pyStr, h]; decide

lemma pyStr_2_5 : pyStr 2.5 = "2.5".toList := by
  have h : scaled4 (2.5 : ℚ) = 25000 := scaled4_eq _ _ (by norm_num) (by norm_num)
  simp only [pyStr, h]; decide

lemma fmt4_9 : fmt4 9 = "9.0000".toList := by
  have h : scaled4 (9 : ℚ) = 90000 := scaled4_eq _ _ (by norm_num) (by norm_num)
  simp only [fmt4, h]; decide

lemma pyStr_dimona_lat : pyStr 31.0689 = "31.0689".toList := by
  have h : scaled4 (31.0689 : ℚ) = 310689 := scaled4_eq _ _ (by norm_num) (by norm_num)
  simp only [pyStr, h]; decide

lemma pyStr_dimona_lng : pyStr 35.0317 = "35.0317".toList := by
  have h : scaled4 (35.0317 : ℚ) = 350317 := scaled4_eq _ _ (by norm_num) (by norm_num)
  simp only [pyStr, h]; decide

lemma fmt4_dimona_lat : fmt4 31.0687 = "31.0687".toList := by
  have h : scaled4 (31.0687 : ℚ) = 310687 := scaled4_eq _ _ (by norm_num) (by norm_num)
  simp only [fmt4, h]; decide

lemma fmt4_dimona_lng : fmt4 35.0366 = "35.0366".toList := by
  have h : scaled4 (35.0366 : ℚ) = 350366 := scaled4_eq _ _ (by norm_num) (by norm_num)
  simp only [fmt4, h]; decide

lemma pyStr_jeru_lat : pyStr 31.7683 = "31.7683".toList := by
  have h : scaled4 (31.7683 : ℚ) = 317683 := scaled4_eq _ _ (by norm_num) (by norm_num)
  simp only [pyStr, h]; decide

lemma pyStr_jeru_lng : pyStr 35.2137 = "35.2137".toList := by
  have h : scaled4 (35.2137 : ℚ) = 352137 := scaled4_eq _ _ (by norm_num) (by norm_num)
  simp only [pyStr, h]; decide

lemma fmt4_jeru_lat : fmt4 31.7788 = "31.7788".toList := by
  have h : scaled4 (31.7788 : ℚ) = 317788 := scaled4_eq _ _ (by norm_num) (by norm_num)
  simp only [fmt4, h]; decide

lemma fmt4_jeru_lng : fmt4 35.2258 = "35.2258".toList := by
  have h : scaled4 (35.2258 : ℚ) = 352258 := scaled4_eq _ _ (by norm_num) (by norm_num)
  simp only [fmt4, h]; decide

/-! ## The substitution claims -/

/-- C1: when `apply_fix` finds the name-tagged record carrying the
literal stringified old latitude and longitude (the leftmost match of
the pattern), the output document keeps every byte outside the two
numeric literals — the prefix `P`, the suffix `S`, the name tag, both
whitespace runs and both field labels — and replaces exactly the two
literals with the new values formatted to four decimal places. -/
theorem apply_fix_frame (P S name w1 w2 : List Char) (old_lat old_lng new_lat new_lng : ℚ)
    (hw1 : ∀ c ∈ w1, pyIsSpace c = true) (hw2 : ∀ c ∈ w2, pyIsSpace c = true)
    (hleft : ∀ i, i < P.length →
      matchAt name (pyStr old_lat) (pyStr old_lng)
        ((P ++ recordText name w1 w2 (pyStr old_lat) (pyStr old_lng) ++ S).drop i) = none) :
    (apply_fix (P ++ recordText name w1 w2 (pyStr old_lat) (pyStr old_lng) ++ S)
        name old_lat old_lng new_lat new_lng).1
      = P ++ recordText name w1 w2 (fmt4 new_lat) (fmt4 new_lng) ++ S := by
  have hm := @matchAt_recordText name (pyStr old_lat) (pyStr old_lng) w1 w2 hw1 hw2 S
  simp only [List.append_assoc] at hleft ⊢
  show subFirst name (pyStr old_lat) (pyStr old_lng) (fmt4 new_lat) (fmt4 new_lng)
      (P ++ (recordText name w1 w2 (pyStr old_lat) (pyStr old_lng) ++ S)) = _
  rw [subFirst_prepend _ _ hleft, subFirst_matched hm]

/-- Witness for C1 at a concrete document. -/
theorem apply_fix_frame_witness :
    (apply_fix ("zz ".toList ++ recordText "X".toList [' '] [' '] (pyStr 1.5) (pyStr 2.5)
          ++ "!!".toList) "X".toList 1.5 2.5 9 9).1
      = "zz ".toList ++ recordText "X".toList [' '] [' '] (fmt4 9) (fmt4 9) ++ "!!".toList :=
  apply_fix_frame "zz ".toList "!!".toList "X".toList [' '] [' '] 1.5 2.5 9 9
    (by decide) (by decide)
    (by simp only [recordText, nameTag, pyStr_1_5, pyStr_2_5]; decide)

/-- C3: when the pattern — name tag plus the exact stringified old
values — matches nowhere in the document, `apply_fix` returns the
document unmodified with `changed = false`; the missing match is an
ordinary return value of the total function, not an error. -/
theorem apply_fix_no_match (doc name : List Char) (old_lat old_lng new_lat new_lng : ℚ)
    (h : hasMatch name (pyStr old_lat) (pyStr old_lng) doc = false) :
    apply_fix doc name old_lat old_lng new_lat new_lng = (doc, false) := by
  have hid := @subFirst_of_no_match name (pyStr old_lat) (pyStr old_lng)
    (fmt4 new_lat) (fmt4 new_lng) doc h
  simp only [apply_fix, hid]
  simp

/-- Witness for C3 at a concrete document. -/
theorem apply_fix_no_match_witness :
    apply_fix "no record here".toList "X".toList 1.5 2.5 9 9 = ("no record here".toList, false) :=
  apply_fix_no_match "no record here".toList "X".toList 1.5 2.5 9 9
    (by simp only [pyStr_1_5, pyStr_2_5]; decide)

/-- C4: when the pattern occurs more than once — here, a second
occurrence inside the suffix `S` — a single `apply_fix` call rewrites
only the leftmost occurrence; the entire suffix `S`, later occurrences
included, is returned byte-identical. -/
theorem apply_fix_first_occurrence_only (P S name w1 w2 : List Char)
    (old_lat old_lng new_lat new_lng : ℚ)
    (hw1 : ∀ c ∈ w1, pyIsSpace c = true) (hw2 : ∀ c ∈ w2, pyIsSpace c = true)
    (hdup : hasMatch name (pyStr old_lat) (pyStr old_lng) S = true)
    (hleft : ∀ i, i < P.length →
      matchAt name (pyStr old_lat) (pyStr old_lng)
        ((P ++ recordText name w1 w2 (pyStr old_lat) (pyStr old_lng) ++ S).drop i) = none) :
    (apply_fix (P ++ recordText name w1 w2 (pyStr old_lat) (pyStr old_lng) ++ S)
        name old_lat old_lng new_lat new_lng).1
      = P ++ recordText name w1 w2 (fmt4 new_lat) (fmt4 new_lng) ++ S := by
  have hm := @matchAt_recordText name (pyStr old_lat) (pyStr old_lng) w1 w2 hw1 hw2 S
  simp only [List.append_assoc] at hleft ⊢
  show subFirst name (pyStr old_lat) (pyStr old_lng) (fmt4 new_lat) (fmt4 new_lng)
      (P ++ (recordText name w1 w2 (pyStr old_lat) (pyStr old_lng) ++ S)) = _
  rw [subFirst_prepend _ _ hleft, subFirst_matched hm]

/-- Witness for C4: two identical `Dimona` records (the duplicated row
of `PATCHES`); only the first is rewritten, the second stays verbatim
inside the preserved suffix. -/
theorem apply_fix_first_occurrence_only_witness :
    (apply_fix (([] : List Char)
          ++ recordText "Dimona".toList [' '] [' '] (pyStr 31.0689) (pyStr 35.0317)
          ++ (" ".toList
            ++ recordText "Dimona".toList [' '] [' '] (pyStr 31.0689) (pyStr 35.0317)))
        "Dimona".toList 31.0689 35.0317 31.0687 35.0366).1
      = ([] : List Char)
          ++ recordText "Dimona".toList [' '] [' '] (fmt4 31.0687) (fmt4 35.0366)
          ++ (" ".toList
            ++ recordText "Dimona".toList [' '] [' '] (pyStr 31.0689) (pyStr 35.0317)) :=
  apply_fix_first_occurrence_only []
    (" ".toList ++ recordText "Dimona".toList [' '] [' '] (pyStr 31.0689) (pyStr 35.0317))
    "Dimona".toList [' '] [' '] 31.0689 35.0317 31.0687 35.0366
    (by decide) (by decide)
    (by simp only [recordText, nameTag, pyStr_dimona_lat, pyStr_dimona_lng]; decide)
    (by intro i hi; exact absurd hi (by simp))

/-- C2 fails as stated: on a document holding two identical matching
records, the first call rewrites the first record (`changed = true`)
and the second call, run on the first call's output, still finds the
untouched second record and rewrites it too — `changed = true` again,
not `false`. -/
theorem apply_twice_counterexample :
    (apply_fix "name:\"X\", lat:1.5, lng:2.5 name:\"X\", lat:1.5, lng:2.5".toList
        "X".toList 1.5 2.5 9 9).2 = true ∧
    (apply_fix (apply_fix "name:\"X\", lat:1.5, lng:2.5 name:\"X\", lat:1.5, lng:2.5".toList
        "X".toList 1.5 2.5 9 9).1 "X".toList 1.5 2.5 9 9).2 = true := by
  constructor <;> (simp only [apply_fix, pyStr_1_5, pyStr_2_5, fmt4_9]; decide)

/-- C2 amended: when the first call changes the document and its output
no longer contains any match of the old pattern (in particular whenever
the matched record was the only occurrence and the replacement text no
longer matches), the second call with the same arguments is a no-op:
it returns the document unchanged with `changed = false`. -/
theorem apply_twice_amended (doc name : List Char) (old_lat old_lng new_lat new_lng : ℚ)
    (h1 : (apply_fix doc name old_lat old_lng new_lat new_lng).2 = true)
    (h2 : hasMatch name (pyStr old_lat) (pyStr old_lng)
      (apply_fix doc name old_lat old_lng new_lat new_lng).1 = false) :
    apply_fix (apply_fix doc name old_lat old_lng new_lat new_lng).1
        name old_lat old_lng new_lat new_lng
      = ((apply_fix doc name old_lat old_lng new_lat new_lng).1, false) := by
  generalize hout : (apply_fix doc name old_lat old_lng new_lat new_lng).1 = out at h2 ⊢
  have hid := @subFirst_of_no_match name (pyStr old_lat) (pyStr old_lng)
    (fmt4 new_lat) (fmt4 new_lng) out h2
  simp only [apply_fix, hid]
  simp

/-- Witness for the amended C2 at a concrete single-record document. -/
theorem apply_twice_amended_witness :
    apply_fix (apply_fix "name:\"X\", lat:1.5, lng:2.5".toList "X".toList 1.5 2.5 9 9).1
        "X".toList 1.5 2.5 9 9
      = ((apply_fix "name:\"X\", lat:1.5, lng:2.5".toList "X".toList 1.5 2.5 9 9).1, false) :=
  apply_twice_amended "name:\"X\", lat:1.5, lng:2.5".toList "X".toList 1.5 2.5 9 9
    (by simp only [apply_fix, pyStr_1_5, pyStr_2_5, fmt4_9]; decide)
    (by simp only [apply_fix, pyStr_1_5, pyStr_2_5, fmt4_9]; decide)

/-- C10: for both appliers the `changed` flag is `true` exactly when
the returned document text differs from the input; and in the
file-writing variant (`apply_fix` of `validate_coords.py`) a
`changed = false` outcome leaves the host file content untouched. -/
theorem changed_iff_text_differs (content name : List Char) (old_lat old_lng new_lat new_lng : ℚ) :
    ((apply_fix content name old_lat old_lng new_lat new_lng).2 = true ↔
      (apply_fix content name old_lat old_lng new_lat new_lng).1 ≠ content) ∧
    ((apply_fix_validate content name old_lat old_lng new_lat new_lng).2 = true ↔
      (apply_fix_validate content name old_lat old_lng new_lat new_lng).1 ≠ content) ∧
    ((apply_fix_validate content name old_lat old_lng new_lat new_lng).2 = false →
      (apply_fix_validate content name old_lat old_lng new_lat new_lng).1 = content) := by
  refine ⟨by simp [apply_fix], ?_, ?_⟩ <;>
    · simp only [apply_fix_validate]
      split <;> split <;> simp_all

/-- Witness for C10: a document with no occurrence of the pattern is
reported unchanged and the host file content is untouched. -/
theorem changed_iff_text_differs_witness :
    (apply_fix_validate "nothing".toList "X".toList 1.5 2.5 9 9).1 = "nothing".toList :=
  (changed_iff_text_differs "nothing".toList "X".toList 1.5 2.5 9 9).2.2
    (by simp only [apply_fix_validate, pyStr_1_5, pyStr_2_5, fmt4_9]; decide)


/-! ## The haversine claims -/

/-- C5: `haversine_km` computes exactly the reference haversine formula
of the specification — `a = sin²(Δlat/2) + cos(lat1)·cos(lat2)·sin²(Δlng/2)`,
`d = 2R·asin(√a)` with `R = 6371` and all angles converted to radians
before use — for every pair of input coordinates. -/
theorem haversine_km_eq_spec (lat1 lng1 lat2 lng2 : ℝ) :
    haversine_km lat1 lng1 lat2 lng2 = haversineSpec_km lat1 lng1 lat2 lng2 := by
  unfold haversine_km haversineSpec_km haversine_a radians
  rw [show (lat2 - lat1) * Real.pi / 180 / 2
      = (lat2 * Real.pi / 180 - lat1 * Real.pi / 180) / 2 from by ring,
    show (lng2 - lng1) * Real.pi / 180 / 2
      = (lng2 * Real.pi / 180 - lng1 * Real.pi / 180) / 2 from by ring]
  ring

/-- C7: on the documented domain (latitudes within ±90 degrees,
longitudes within ±180 degrees) the haversine intermediate `a` always
lies in `[0, 1]`, so `sqrt` receives a nonnegative argument and `asin`
an argument inside `[-1, 1]`: every step of the pure real-valued
function is inside its mathematical domain, no special-casing of
antipodal points or poles is needed, and the resulting distance is
nonnegative.  (IEEE `NaN` has no counterpart in the real-valued model;
the function here is total and deterministic by construction.) -/
theorem haversine_total_safe (lat1 lng1 lat2 lng2 : ℝ)
    (h1a : -90 ≤ lat1) (h1b : lat1 ≤ 90) (h2a : -90 ≤ lat2) (h2b : lat2 ≤ 90)
    (h3a : -180 ≤ lng1) (h3b : lng1 ≤ 180) (h4a : -180 ≤ lng2) (h4b : lng2 ≤ 180) :
    0 ≤ haversine_a lat1 lng1 lat2 lng2 ∧ haversine_a lat1 lng1 lat2 lng2 ≤ 1 ∧
    0 ≤ Real.sqrt (haversine_a lat1 lng1 lat2 lng2) ∧
    Real.sqrt (haversine_a lat1 lng1 lat2 lng2) ≤ 1 ∧
    0 ≤ haversine_km lat1 lng1 lat2 lng2 := by
  have hpi := Real.pi_pos
  have hc1 : 0 ≤ Real.cos (radians lat1) := by
    apply Real.cos_nonneg_of_mem_Icc
    constructor
    · unfold radians
      nlinarith [mul_nonneg (by linarith : (0:ℝ) ≤ lat1 + 90) hpi.le]
    · unfold radians
      nlinarith [mul_nonneg (by linarith : (0:ℝ) ≤ 90 - lat1) hpi.le]
  have hc2 : 0 ≤ Real.cos (radians lat2) := by
    apply Real.cos_nonneg_of_mem_Icc
    constructor
    · unfold radians
      nlinarith [mul_nonneg (by linarith : (0:ℝ) ≤ lat2 + 90) hpi.le]
    · unfold radians
      nlinarith [mul_nonneg (by linarith : (0:ℝ) ≤ 90 - lat2) hpi.le]
  have ha0 : 0 ≤ haversine_a lat1 lng1 lat2 lng2 :=
    add_nonneg (sq_nonneg _) (mul_nonneg (mul_nonneg hc1 hc2) (sq_nonneg _))
  have ha1 : haversine_a lat1 lng1 lat2 lng2 ≤ 1 := by
    have e1 : Real.sin (radians (lat2 - lat1) / 2) ^ 2
        = 1 / 2 - Real.cos (radians lat2 - radians lat1) / 2 := by
      rw [Real.sin_sq_eq_half_sub,
        show 2 * (radians (lat2 - lat1) / 2) = radians lat2 - radians lat1 from by
          unfold radians; ring]
    have e2 : Real.sin (radians (lng2 - lng1) / 2) ^ 2
        = 1 / 2 - Real.cos (radians lng2 - radians lng1) / 2 := by
      rw [Real.sin_sq_eq_half_sub,
        show 2 * (radians (lng2 - lng1) / 2) = radians lng2 - radians lng1 from by
          unfold radians; ring]
    have hprod : 0 ≤ Real.cos (radians lat1) * Real.cos (radians lat2) := mul_nonneg hc1 hc2
    have hscale := mul_le_mul_of_nonneg_left
      (Real.neg_one_le_cos (radians lng2 - radians lng1)) hprod
    unfold haversine_a
    rw [e1, e2]
    nlinarith [Real.cos_le_one (radians lat1 + radians lat2),
      Real.cos_add (radians lat1) (radians lat2),
      Real.cos_sub (radians lat2) (radians lat1), hscale]
  have hs0 : 0 ≤ Real.sqrt (haversine_a lat1 lng1 lat2 lng2) := Real.sqrt_nonneg _
  have hs1 : Real.sqrt (haversine_a lat1 lng1 lat2 lng2) ≤ 1 := Real.sqrt_le_one.mpr ha1
  refine ⟨ha0, ha1, hs0, hs1, ?_⟩
  unfold haversine_km
  have := Real.arcsin_nonneg.mpr hs0
  nlinarith [this]

/-- Witness for C7 at a concrete coordinate pair. -/
theorem haversine_total_safe_witness :
    0 ≤ haversine_a 31.7683 35.2137 31.7788 35.2258 ∧
    haversine_a 31.7683 35.2137 31.7788 35.2258 ≤ 1 ∧
    0 ≤ Real.sqrt (haversine_a 31.7683 35.2137 31.7788 35.2258) ∧
    Real.sqrt (haversine_a 31.7683 35.2137 31.7788 35.2258) ≤ 1 ∧
    0 ≤ haversine_km 31.7683 35.2137 31.7788 35.2258 :=
  haversine_total_safe 31.7683 35.2137 31.7788 35.2258
    (by norm_num) (by norm_num) (by norm_num) (by norm_num)
    (by norm_num) (by norm_num) (by norm_num) (by norm_num)

/-! ## The locator and batch-driver claims -/

/-- C8: `nominatim_lookup` maps an exception to a tagged failure
carrying the cause, an empty candidate list to the failure
`"No result"`, and a non-empty list to the first candidate's
coordinates and label; and the batch loop turns a failing lookup into
one `LOOKUP FAILED` report line, leaving the document untouched and
continuing with the remaining records — no failure escapes or aborts
the batch. -/
theorem nominatim_lookup_failure_modes :
    (∀ e, nominatim_lookup (.error e) = .failure ("ERROR: " ++ e)) ∧
    (nominatim_lookup (.ok []) = .failure "No result") ∧
    (∀ c cs, nominatim_lookup (.ok (c :: cs)) = .success c.lat c.lon c.display_name) ∧
    (∀ applyMode oracle acc name slat slng e, oracle name = Except.error e →
      processTown applyMode oracle acc (name, slat, slng)
        = { acc with lookups := acc.lookups ++ [name],
                     lines := acc.lines ++ [⟨name, .lookupFailed⟩] }) ∧
    (∀ applyMode oracle acc name slat slng, oracle name = Except.ok [] →
      processTown applyMode oracle acc (name, slat, slng)
        = { acc with lookups := acc.lookups ++ [name],
                     lines := acc.lines ++ [⟨name, .lookupFailed⟩] }) ∧
    (∀ applyMode oracle acc t ts,
      (t :: ts).foldl (processTown applyMode oracle) acc
        = ts.foldl (processTown applyMode oracle) (processTown applyMode oracle acc t)) := by
  refine ⟨fun e => rfl, rfl, fun c cs => rfl, ?_, ?_, fun A o acc t ts => rfl⟩
  · intro applyMode oracle acc name slat slng e h
    simp [processTown, h, nominatim_lookup]
  · intro applyMode oracle acc name slat slng h
    simp [processTown, h, nominatim_lookup]

/-- Witness for C8: a timed-out lookup at a concrete record. -/
theorem nominatim_lookup_failure_modes_witness :
    processTown false (fun _ => Except.error "timed out") ⟨[], [], []⟩ ("Haifa", 1, 2)
      = { lookups := ["Haifa"], lines := [⟨"Haifa", .lookupFailed⟩], content := [] } :=
  nominatim_lookup_failure_modes.2.2.2.1
    false (fun _ => Except.error "timed out") ⟨[], [], []⟩ "Haifa" 1 2 "timed out" rfl

lemma processTown_name (applyMode : Bool) (oracle : String → Except String (List Candidate))
    (acc : BatchState) (t : String × ℚ × ℚ) :
    (processTown applyMode oracle acc t).lookups = acc.lookups ++ [t.1] ∧
    ∃ st, (processTown applyMode oracle acc t).lines = acc.lines ++ [⟨t.1, st⟩] := by
  cases h : nominatim_lookup (oracle t.1) with
  | failure r =>
    simp only [processTown, h]
    exact ⟨trivial, _, rfl⟩
  | success la ln lb =>
    simp only [processTown, h]
    split
    · exact ⟨rfl, _, rfl⟩
    · split
      · exact ⟨rfl, _, rfl⟩
      · exact ⟨rfl, _, rfl⟩

lemma foldl_excluded (applyMode : Bool) (oracle : String → Except String (List Candidate))
    (bad : String) :
    ∀ (ts : List (String × ℚ × ℚ)) (acc : BatchState),
      (∀ t ∈ ts, t.1 ≠ bad) → bad ∉ acc.lookups → (∀ l ∈ acc.lines, l.name ≠ bad) →
      bad ∉ (ts.foldl (processTown applyMode oracle) acc).lookups ∧
      ∀ l ∈ (ts.foldl (processTown applyMode oracle) acc).lines, l.name ≠ bad
  | [], acc, _, h2, h3 => ⟨h2, h3⟩
  | t :: ts, acc, h1, h2, h3 => by
    simp only [List.foldl_cons]
    obtain ⟨hlk, st, hln⟩ := processTown_name applyMode oracle acc t
    have hne : t.1 ≠ bad := h1 t (by simp)
    refine foldl_excluded applyMode oracle bad ts _ (fun u hu => h1 u (by simp [hu])) ?_ ?_
    · rw [hlk]
      intro hmem
      rcases List.mem_append.mp hmem with h | h
      · exact h2 h
      · simp at h
        exact hne h.symm
    · rw [hln]
      intro l hl
      rcases List.mem_append.mp hl with h | h
      · exact h3 l h
      · simp at h
        rw [h]
        exact hne

/-- C9: a record whose name lies in either exclusion set — the
polygon-town set or the no-OSM-record skip set — is filtered out before
the loop: a batch run never passes that name to the locator and prints
no per-record report line for it, whatever the oracle answers and
whichever mode is selected. -/
theorem excluded_never_looked_up (applyMode : Bool)
    (oracle : String → Except String (List Candidate)) (content : List Char)
    (towns : List (String × ℚ × ℚ)) (name : String)
    (h : name ∈ POLYGON_TOWNS ∨ name ∈ SKIP_NAMES) :
    name ∉ (mainValidate applyMode oracle content towns).lookups ∧
    ∀ l ∈ (mainValidate applyMode oracle content towns).lines, l.name ≠ name := by
  unfold mainValidate
  refine foldl_excluded applyMode oracle name _ ⟨[], [], content⟩ ?_ (by simp) (by simp)
  intro t ht heq
  have hp := (List.mem_filter.mp ht).2
  rw [heq] at hp
  simp only [Bool.and_eq_true, Bool.not_eq_true', List.contains] at hp
  rcases h with h | h
  · have hx := List.elem_eq_true_of_mem h
    rw [hp.1] at hx
    exact Bool.noConfusion hx
  · have hx := List.elem_eq_true_of_mem h
    rw [hp.2] at hx
    exact Bool.noConfusion hx

/-- Witness for C9: `Afula` is a polygon town; a run over a parsed
record list containing it performs no lookup and prints no line for
it. -/
theorem excluded_never_looked_up_witness :
    "Afula" ∉ (mainValidate false (fun _ => Except.ok []) []
        [("Afula", 32.6076, 35.2897)]).lookups ∧
    ∀ l ∈ (mainValidate false (fun _ => Except.ok []) []
        [("Afula", 32.6076, 35.2897)]).lines, l.name ≠ "Afula" :=
  excluded_never_looked_up false (fun _ => Except.ok []) []
    [("Afula", 32.6076, 35.2897)] "Afula"
    (Or.inl (by unfold POLYGON_TOWNS; exact List.mem_cons_self _ _))


/-! ## Numeric bounds for the Jerusalem fixture -/

lemma sin_interval {x lo hi : ℝ} (h0 : 0 < lo) (hl : lo ≤ x) (hh : x ≤ hi) (h1 : hi ≤ 1) :
    lo - hi ^ 3 / 6 - hi ^ 4 * (5 / 96) ≤ Real.sin x ∧
    Real.sin x ≤ hi - lo ^ 3 / 6 + hi ^ 4 * (5 / 96) := by
  have hx0 : 0 < x := lt_of_lt_of_le h0 hl
  have hax : |x| = x := abs_of_pos hx0
  have hx1 : |x| ≤ 1 := by rw [hax]; linarith
  have hb := Real.sin_bound hx1
  rw [hax, abs_le] at hb
  obtain ⟨hb1, hb2⟩ := hb
  constructor
  · have p3 := pow_le_pow_left₀ hx0.le hh 3
    have p4 := pow_le_pow_left₀ hx0.le hh 4
    nlinarith [p3, p4]
  · have p3 := pow_le_pow_left₀ h0.le hl 3
    have p4 := pow_le_pow_left₀ hx0.le hh 4
    nlinarith [p3, p4]

lemma cos_interval {x lo hi : ℝ} (h0 : 0 ≤ lo) (hl : lo ≤ x) (hh : x ≤ hi) (h1 : hi ≤ 1) :
    1 - hi ^ 2 / 2 - hi ^ 4 * (5 / 96) ≤ Real.cos x ∧
    Real.cos x ≤ 1 - lo ^ 2 / 2 + hi ^ 4 * (5 / 96) := by
  have hx0 : 0 ≤ x := le_trans h0 hl
  have hax : |x| = x := abs_of_nonneg hx0
  have hx1 : |x| ≤ 1 := by rw [hax]; linarith
  have hb := Real.cos_bound hx1
  rw [hax, abs_le] at hb
  obtain ⟨hb1, hb2⟩ := hb
  constructor
  · have p2 := pow_le_pow_left₀ hx0 hh 2
    have p4 := pow_le_pow_left₀ hx0 hh 4
    nlinarith [p2, p4]
  · have p2 := pow_le_pow_left₀ h0 hl 2
    have p4 := pow_le_pow_left₀ hx0 hh 4
    nlinarith [p2, p4]

lemma le_arcsin {y : ℝ} (h0 : 0 < y) (h1 : y ≤ 1) : y ≤ Real.arcsin y := by
  have ht0 : 0 < Real.arcsin y := Real.arcsin_pos.mpr h0
  have hs := Real.sin_lt ht0
  rw [Real.sin_arcsin (by linarith) h1] at hs
  exact hs.le

lemma arcsin_upper {y U : ℝ} (h0 : 0 < y) (hU : y ≤ U) (hU2 : U ^ 2 ≤ 1 / 2) :
    Real.arcsin y < U / (1 - U ^ 2) := by
  have hy1 : y < 1 := by nlinarith
  have ht0 : 0 < Real.arcsin y := Real.arcsin_pos.mpr h0
  have ht2 : Real.arcsin y < Real.pi / 2 := Real.arcsin_lt_pi_div_two.mpr hy1
  have htan := Real.lt_tan ht0 ht2
  rw [Real.tan_eq_sin_div_cos, Real.sin_arcsin (by linarith) hy1.le, Real.cos_arcsin] at htan
  have hz : (0:ℝ) ≤ 1 - y ^ 2 := by nlinarith
  have hsq := Real.sq_sqrt hz
  have hsn := Real.sqrt_nonneg (1 - y ^ 2)
  have hs1 : Real.sqrt (1 - y ^ 2) ≤ 1 := by
    nlinarith [sq_nonneg (Real.sqrt (1 - y ^ 2) - 1)]
  have hzs : 1 - y ^ 2 ≤ Real.sqrt (1 - y ^ 2) := by
    nlinarith [mul_nonneg hsn (by linarith : (0:ℝ) ≤ 1 - Real.sqrt (1 - y ^ 2))]
  have hcos : (1:ℝ) - U ^ 2 ≤ Real.sqrt (1 - y ^ 2) := by nlinarith
  have hpos : (0:ℝ) < 1 - U ^ 2 := by nlinarith
  have hspos : 0 < Real.sqrt (1 - y ^ 2) := lt_of_lt_of_le hpos hcos
  rw [lt_div_iff₀ hpos]
  have hlt : Real.arcsin y * Real.sqrt (1 - y ^ 2) < y := by
    have h := mul_lt_mul_of_pos_right htan hspos
    rwa [div_mul_cancel₀ _ (ne_of_gt hspos)] at h
  nlinarith [mul_le_mul_of_nonneg_left hcos ht0.le]


set_option maxHeartbeats 1600000 in
lemma jerusalem_distance_bounds :
    1.6 < haversine_km 31.7683 35.2137 31.7788 35.2258 ∧
    haversine_km 31.7683 35.2137 31.7788 35.2258 < 1.67 := by
  have hPL : (3.141592 : ℝ) < Real.pi := Real.pi_gt_d6
  have hPU : Real.pi < 3.141593 := Real.pi_lt_d6
  -- rewrite the four angles into closed form
  have hA_eq : haversine_a 31.7683 35.2137 31.7788 35.2258
      = Real.sin (0.0105 * Real.pi / 360) ^ 2 +
        Real.cos (31.7683 * Real.pi / 180) * Real.cos (31.7788 * Real.pi / 180) *
          Real.sin (0.0121 * Real.pi / 360) ^ 2 := by
    unfold haversine_a radians
    rw [show ((31.7788:ℝ) - 31.7683) = 0.0105 from by norm_num,
      show ((35.2258:ℝ) - 35.2137) = 0.0121 from by norm_num,
      show (0.0105:ℝ) * Real.pi / 180 / 2 = 0.0105 * Real.pi / 360 from by ring,
      show (0.0121:ℝ) * Real.pi / 180 / 2 = 0.0121 * Real.pi / 360 from by ring]
  -- sin of the half latitude delta
  have hsla := @sin_interval (0.0105 * Real.pi / 360) (0.0105 * 3.141592 / 360)
    (0.0105 * 3.141593 / 360) (by norm_num) (by linarith) (by linarith) (by norm_num)
  have hsla1 : (9.16297e-5 : ℝ) ≤ Real.sin (0.0105 * Real.pi / 360) :=
    le_trans (by norm_num) hsla.1
  have hsla2 : Real.sin (0.0105 * Real.pi / 360) ≤ 9.16299e-5 :=
    le_trans hsla.2 (by norm_num)
  -- sin of the half longitude delta
  have hslg := @sin_interval (0.0121 * Real.pi / 360) (0.0121 * 3.141592 / 360)
    (0.0121 * 3.141593 / 360) (by norm_num) (by linarith) (by linarith) (by norm_num)
  have hslg1 : (1.055923e-4 : ℝ) ≤ Real.sin (0.0121 * Real.pi / 360) :=
    le_trans (by norm_num) hslg.1
  have hslg2 : Real.sin (0.0121 * Real.pi / 360) ≤ 1.055925e-4 :=
    le_trans hslg.2 (by norm_num)
  -- cosines of the two latitudes
  have hc1 := @cos_interval (31.7683 * Real.pi / 180) (31.7683 * 3.141592 / 180)
    (31.7683 * 3.141593 / 180) (by norm_num) (by linarith) (by linarith) (by norm_num)
  have hc1a : (0.84136 : ℝ) ≤ Real.cos (31.7683 * Real.pi / 180) :=
    le_trans (by norm_num) hc1.1
  have hc1b : Real.cos (31.7683 * Real.pi / 180) ≤ 0.85121 :=
    le_trans hc1.2 (by norm_num)
  have hc2 := @cos_interval (31.7788 * Real.pi / 180) (31.7788 * 3.141592 / 180)
    (31.7788 * 3.141593 / 180) (by norm_num) (by linarith) (by linarith) (by norm_num)
  have hc2a : (0.84125 : ℝ) ≤ Real.cos (31.7788 * Real.pi / 180) :=
    le_trans (by norm_num) hc2.1
  have hc2b : Real.cos (31.7788 * Real.pi / 180) ≤ 0.85112 :=
    le_trans hc2.2 (by norm_num)
  -- the product of the cosines
  have hp1 : (0.7077 : ℝ) ≤ Real.cos (31.7683 * Real.pi / 180) * Real.cos (31.7788 * Real.pi / 180) := by
    have h := mul_le_mul hc1a hc2a (by norm_num) (by linarith)
    have : (0.7077 : ℝ) ≤ 0.84136 * 0.84125 := by norm_num
    linarith
  have hp2 : Real.cos (31.7683 * Real.pi / 180) * Real.cos (31.7788 * Real.pi / 180) ≤ 0.7245 := by
    have h := mul_le_mul hc1b hc2b (by linarith) (by norm_num)
    have : (0.85121 : ℝ) * 0.85112 ≤ 0.7245 := by norm_num
    linarith
  -- squares of the sines
  have hq1 : (8.39599e-9 : ℝ) ≤ Real.sin (0.0105 * Real.pi / 360) ^ 2 := by
    have h := mul_le_mul hsla1 hsla1 (by norm_num) (by linarith)
    have : (8.39599e-9 : ℝ) ≤ (9.16297e-5 : ℝ) * 9.16297e-5 := by norm_num
    nlinarith [h]
  have hq2 : Real.sin (0.0105 * Real.pi / 360) ^ 2 ≤ 8.39604e-9 := by
    have h := mul_le_mul hsla2 hsla2 (by linarith) (by norm_num)
    have : (9.16299e-5 : ℝ) * 9.16299e-5 ≤ 8.39604e-9 := by norm_num
    nlinarith [h]
  have hr1 : (1.114973e-8 : ℝ) ≤ Real.sin (0.0121 * Real.pi / 360) ^ 2 := by
    have h := mul_le_mul hslg1 hslg1 (by norm_num) (by linarith)
    have : (1.114973e-8 : ℝ) ≤ (1.055923e-4 : ℝ) * 1.055923e-4 := by norm_num
    nlinarith [h]
  have hr2 : Real.sin (0.0121 * Real.pi / 360) ^ 2 ≤ 1.114978e-8 := by
    have h := mul_le_mul hslg2 hslg2 (by linarith) (by norm_num)
    have : (1.055925e-4 : ℝ) * 1.055925e-4 ≤ 1.114978e-8 := by norm_num
    nlinarith [h]
  -- bounds on the haversine intermediate
  have hA1 : (1.6286e-8 : ℝ) ≤ haversine_a 31.7683 35.2137 31.7788 35.2258 := by
    rw [hA_eq]
    nlinarith [mul_le_mul hp1 hr1 (by norm_num) (by linarith),
      mul_le_mul hp2 hr2 (by positivity) (by norm_num)]
  have hA2 : haversine_a 31.7683 35.2137 31.7788 35.2258 ≤ 1.6475e-8 := by
    rw [hA_eq]
    nlinarith [mul_le_mul hp1 hr1 (by norm_num) (by linarith),
      mul_le_mul hp2 hr2 (by positivity) (by norm_num)]
  -- bounds on the square root
  have hy1 : (1.2761e-4 : ℝ) ≤ Real.sqrt (haversine_a 31.7683 35.2137 31.7788 35.2258) := by
    calc (1.2761e-4 : ℝ) = Real.sqrt ((1.2761e-4) ^ 2) := (Real.sqrt_sq (by norm_num)).symm
      _ ≤ Real.sqrt (haversine_a 31.7683 35.2137 31.7788 35.2258) :=
          Real.sqrt_le_sqrt (by nlinarith [hA1])
  have hy2 : Real.sqrt (haversine_a 31.7683 35.2137 31.7788 35.2258) ≤ 1.28356e-4 := by
    calc Real.sqrt (haversine_a 31.7683 35.2137 31.7788 35.2258)
        ≤ Real.sqrt ((1.28356e-4) ^ 2) := Real.sqrt_le_sqrt (by nlinarith [hA2])
      _ = 1.28356e-4 := Real.sqrt_sq (by norm_num)
  -- bounds on the arcsine
  have hy0 : (0:ℝ) < Real.sqrt (haversine_a 31.7683 35.2137 31.7788 35.2258) := by
    linarith
  have harc1 : (1.2761e-4 : ℝ) ≤
      Real.arcsin (Real.sqrt (haversine_a 31.7683 35.2137 31.7788 35.2258)) := by
    have := le_arcsin hy0 (by linarith : Real.sqrt (haversine_a 31.7683 35.2137 31.7788 35.2258) ≤ 1)
    linarith
  have harc2 : Real.arcsin (Real.sqrt (haversine_a 31.7683 35.2137 31.7788 35.2258))
      < 1.28357e-4 := by
    have h := arcsin_upper hy0 hy2 (by norm_num)
    have hU : (1.28356e-4 : ℝ) / (1 - (1.28356e-4) ^ 2) < 1.28357e-4 := by
      rw [div_lt_iff₀ (by norm_num)]
      norm_num
    linarith
  constructor
  · show (1.6:ℝ) < 6371 * 2 * Real.arcsin (Real.sqrt (haversine_a 31.7683 35.2137 31.7788 35.2258))
    linarith
  · show 6371 * 2 * Real.arcsin (Real.sqrt (haversine_a 31.7683 35.2137 31.7788 35.2258)) < (1.67:ℝ)
    linarith


/-- C6 fails as stated: the haversine distance between the stored
Jerusalem coordinate `(31.7683, 35.2137)` and the authoritative
coordinate `(31.7788, 35.2258)` is about 1.63 km, not approximately
1.27 km — it differs from 1.27 by more than 0.3 km. -/
theorem jerusalem_distance_not_1_27 :
    0.3 < |haversine_km 31.7683 35.2137 31.7788 35.2258 - 1.27| := by
  have h := jerusalem_distance_bounds.1
  rw [abs_of_pos (by linarith)]
  linarith

set_option maxRecDepth 8000 in
/-- C6 amended: the Jerusalem distance is ≈ 1.63 km (between 1.6 and
1.67), which is below the 3 km threshold, so the validator classifies
the record as within tolerance and does not flag it; yet the `PATCHES`
list explicitly contains this Jerusalem correction, and applying it
rewrites the record to `lat:31.7788, lng:35.2258`. -/
theorem jerusalem_patch_scenario :
    (1.6 < haversine_km 31.7683 35.2137 31.7788 35.2258 ∧
      haversine_km 31.7683 35.2137 31.7788 35.2258 < 1.67) ∧
    haversine_km 31.7683 35.2137 31.7788 35.2258 ≤ THRESHOLD_KM ∧
    ("Jerusalem", 31.7683, 35.2137, 31.7788, 35.2258) ∈ PATCHES ∧
    (apply_fix "name:\"Jerusalem\", lat:31.7683, lng:35.2137".toList
        "Jerusalem".toList 31.7683 35.2137 31.7788 35.2258).1
      = "name:\"Jerusalem\", lat:31.7788, lng:35.2258".toList := by
  refine ⟨jerusalem_distance_bounds, ?_, ?_, ?_⟩
  · have h := jerusalem_distance_bounds.2
    unfold THRESHOLD_KM
    norm_num
    linarith
  · have h17 : PATCHES.get ⟨17, by decide⟩
        = ("Jerusalem", 31.7683, 35.2137, 31.7788, 35.2258) := rfl
    have hm := PATCHES.get_mem 17 (by decide)
    rw [h17] at hm
    exact hm
  · simp only [apply_fix, pyStr_jeru_lat, pyStr_jeru_lng, fmt4_jeru_lat, fmt4_jeru_lng]
    decide

end GillyGeo






